import Mathlib

/-
Verification of the browser-mediated streaming bridge of chatgpt-wrapper.

Shallow embedding of the turn machinery in
`chatgpt_wrapper/asyncChatGPT.py` (class `AsyncChatGPT`) and
`chatgpt_wrapper/chatgpt.py` (class `ChatGPT`).  Pure data flow is translated
directly; the browser, the page DOM, `uuid.uuid4()` and wall-clock time are the
environment and enter as explicit parameters (one `Observation` per host-side
polling iteration, one `AttemptEnv` per attempt of a turn).
-/

namespace ChatGPTWrapper

set_option maxRecDepth 8000

/-- A decoded session object, modelled as its field map (key, string value).
`AsyncChatGPT.session` starts as the empty dict `\x7b\x7d` (modelled `[]`) and is
replaced wholesale by the output of `json.loads` on refresh. -/
abbrev Session := List (String × String)

/-- Python `"accessToken" in session` (dict key membership),
asyncChatGPT.py line 223 and chatgpt.py lines 181, 186. -/
def hasAccessToken (s : Session) : Bool := s.any (fun f => f.1 == "accessToken")

/-- One event payload decoded from the stream marker div: the fields the host
polling loop reads, namely `event["message"]["id"]`, `event["conversation_id"]`
(which may be JSON null) and `event["message"]["content"]["parts"]`. -/
structure StreamEvent where
  messageId : String
  conversationId : Option String
  parts : List String
deriving DecidableEq

/-- What the base64-decoded content of the stream marker div amounts to for one
polling iteration.
`empty`: `len(event_raw) == 0`;
`jsonNull`: `json.loads` returned `None`;
`invalid`: base64 decode or `json.loads` raised, or a required key is missing
(the `except` branch of the iteration);
`event e`: a well-formed non-null event. -/
inductive MarkerContent where
  | empty
  | jsonNull
  | invalid
  | event (e : StreamEvent)
deriving DecidableEq

/-- What one host-side polling iteration sees on the page.
`elapsedOver` is whether `time.time() - start_time` exceeds `self.timeout` at
this iteration's time check; `eofPresent` is whether the eof marker div exists;
`streamDiv` is the stream marker div's decoded content, or `none` when the div
does not exist yet. -/
structure Observation where
  elapsedOver : Bool
  eofPresent : Bool
  streamDiv : Option MarkerContent
deriving DecidableEq

/-- The loop-local and instance state read and written by one polling loop:
`last_event_msg` plus the instance attributes `self.parent_message_id` and
`self.conversation_id`. -/
structure IterState where
  last_event_msg : String
  parent_message_id : String
  conversation_id : Option String
deriving DecidableEq

/-- The try-block of one polling iteration (asyncChatGPT.py lines 319-328,
chatgpt.py lines 275-284): skip an empty payload, skip a JSON `null`, update
`parent_message_id` and `conversation_id` from a parsed event and produce the
newline-joined cumulative message.  `none` models the exception case. -/
def parseMarker (c : MarkerContent) (s : IterState) : Option (IterState × Option String) :=
  match c with
  | .empty => some (s, none)
  | .jsonNull => some (s, none)
  | .invalid => none
  | .event e =>
      some ({ s with parent_message_id := e.messageId,
                     conversation_id := e.conversationId },
            some (String.intercalate "\n" e.parts))

/-- How a polling loop ended.  `eofBreak`: the `break` on the eof marker;
`timeoutExit`: the loop condition went false (async `while...else` timeout
branch, or the sync timed break); `errorRaise`: the decode failure branch;
`exhausted`: the supplied observation sequence ran out with the loop still
running (the model's stand-in for an unboundedly continuing loop). -/
inductive PollExit where
  | eofBreak
  | timeoutExit
  | errorRaise
  | exhausted
deriving DecidableEq

/-- Result of one polling loop: the exit kind, the final state, the chunks
yielded to the caller in order, and two traces used by specifications: the
sequence of non-`None` `full_event_message` values observed, and the sequence
of parsed non-null events. -/
structure PollResult where
  exit : PollExit
  state : IterState
  chunks : List String
  msgs : List String
  events : List StreamEvent
deriving DecidableEq

/-- Python string slicing `full_event_message[n:]` (by characters). -/
def strDrop (s : String) (n : Nat) : String := String.mk (s.data.drop n)

/-- The parsed events contributed by one marker content. -/
def eventsOf (c : MarkerContent) : List StreamEvent :=
  match c with
  | .event e => [e]
  | _ => []

/-- The polling loop of `async_ask_stream` (asyncChatGPT.py lines 305-349).
The loop condition `time.time() - start_time <= self.timeout or
full_event_message != None` is checked before each iteration; its failure is
the `while...else` timeout branch.  An iteration with no stream div yet does
`continue`; otherwise the marker is decoded (`parseMarker`), a non-`None`
cumulative message yields its suffix beyond `len(last_event_msg)`, and the
loop breaks after the yield if the eof marker was seen. -/
def asyncPollLoop : List Observation → IterState → Option String → PollResult
  | [], s, _ => ⟨.exhausted, s, [], [], []⟩
  | o :: rest, s, full =>
    if o.elapsedOver && full.isNone then
      ⟨.timeoutExit, s, [], [], []⟩
    else
      match o.streamDiv with
      | none => asyncPollLoop rest s full
      | some c =>
        match parseMarker c s with
        | none => ⟨.errorRaise, s, [], [], []⟩
        | some (s0, fullNew) =>
          match fullNew with
          | none =>
            if o.eofPresent then ⟨.eofBreak, s0, [], [], []⟩
            else asyncPollLoop rest s0 none
          | some m =>
            let chunk := strDrop m s.last_event_msg.length
            let s1 : IterState := { s0 with last_event_msg := m }
            if o.eofPresent then ⟨.eofBreak, s1, [chunk], [m], eventsOf c⟩
            else
              let r := asyncPollLoop rest s1 (some m)
              ⟨r.exit, r.state, chunk :: r.chunks, m :: r.msgs, eventsOf c ++ r.events⟩

/-- The tips text the sync implementation yields when reading the response
fails (chatgpt.py lines 286-291). -/
def responseErrorTips : String :=
  "Failed to read response from ChatGPT.  Tips:\n * Try again.  ChatGPT can be flaky.\n * Use the `session` command to refresh your session, and then try again.\n * Restart the program in the `install` mode and make sure you are logged in."

/-- The polling loop of the sync `ask_stream` (chatgpt.py lines 262-304).
`while True` with the break after the yield:
`if len(eof_datas) > 0 or (((time.time() - start_time) > self.timeout) and
full_event_message is None): break`.  A decode failure yields the tips text to
the caller and breaks instead of raising.  An iteration with no stream div yet
does `continue`, skipping the break check entirely. -/
def syncPollLoop : List Observation → IterState → PollResult
  | [], s => ⟨.exhausted, s, [], [], []⟩
  | o :: rest, s =>
    match o.streamDiv with
    | none => syncPollLoop rest s
    | some c =>
      match parseMarker c s with
      | none => ⟨.errorRaise, s, [responseErrorTips], [], []⟩
      | some (s0, fullNew) =>
        match fullNew with
        | none =>
          if o.eofPresent then ⟨.eofBreak, s0, [], [], []⟩
          else if o.elapsedOver then ⟨.timeoutExit, s0, [], [], []⟩
          else syncPollLoop rest s0
        | some m =>
          let chunk := strDrop m s.last_event_msg.length
          let s1 : IterState := { s0 with last_event_msg := m }
          if o.eofPresent then ⟨.eofBreak, s1, [chunk], [m], eventsOf c⟩
          else
            let r := syncPollLoop rest s1
            ⟨r.exit, r.state, chunk :: r.chunks, m :: r.msgs, eventsOf c ++ r.events⟩

/-- The rolling conversation state `self.parent_message_id` /
`self.conversation_id`. -/
structure ConvState where
  parent_message_id : String
  conversation_id : Option String
deriving DecidableEq

structure MessageContent where
  content_type : String
  parts : List String
deriving DecidableEq

structure RequestMessage where
  id : String
  role : String
  content : MessageContent
deriving DecidableEq

/-- The request dict built in asyncChatGPT.py lines 231-244 and chatgpt.py
lines 194-206 and injected into the page. -/
structure RequestPayload where
  messages : List RequestMessage
  model : String
  conversation_id : Option String
  parent_message_id : String
  action : String
deriving DecidableEq

/-- The model name hard-coded in asyncChatGPT.py line 240. -/
def asyncModelName : String := "text-davinci-002-render-sha"

/-- `RENDER_MODELS` from chatgpt.py lines 19-23. -/
def RENDER_MODELS : List (String × String) :=
  [("default", "text-davinci-002-render-sha"),
   ("legacy-paid", "text-davinci-002-render-paid"),
   ("legacy-free", "text-davinci-002-render")]

def buildRequest (newMessageId prompt model : String) (conv : ConvState) : RequestPayload :=
  { messages := [{ id := newMessageId, role := "user",
                   content := { content_type := "text", parts := [prompt] } }],
    model := model,
    conversation_id := conv.conversation_id,
    parent_message_id := conv.parent_message_id,
    action := "next" }

/-- How a whole `async_ask_stream` call ends for its caller.  `ok`: the
generator completed after the eof break.  `networkError`, `notLoggedIn`,
`responseError`: the corresponding exception is raised.  `deadlock`: the call
blocks forever acquiring `AsyncChatGPT.lock` (an `asyncio.Lock` is not
reentrant, so a nested call made while the lock is held by the same task never
proceeds).  `outOfModel`: the supplied environment ran out. -/
inductive StreamOutcome where
  | ok
  | networkError
  | notLoggedIn
  | responseError
  | deadlock
  | outOfModel
deriving DecidableEq

/-- Observable record of one `async_ask_stream` call tree: the outcome, all
chunks yielded to the caller in order (across retries), the `remaining_retry`
value of each recursive invocation at entry, how many times `page.evaluate`
was called with the injected XHR code, the request payloads injected, and the
final shared session and conversation state. -/
structure StreamRun where
  outcome : StreamOutcome
  chunks : List String
  budgets : List Nat
  injections : Nat
  requests : List RequestPayload
  session : Session
  conv : ConvState
deriving DecidableEq

/-- Environment of one attempt of `async_ask_stream`: the session the page
yields if `async_refresh_session` runs at the start (`self.session == \x7b\x7d`),
the session it yields if it runs before a retry, the `uuid.uuid4()` drawn for
`new_message_id`, whether `page.evaluate(code)` succeeds, and the polling
observations of the attempt. -/
structure AttemptEnv where
  startRefresh : Session
  retryRefresh : Session
  newMessageId : String
  injectionOk : Bool
  observations : List Observation
deriving DecidableEq

/-- The default of the `remaining_retry` parameter (asyncChatGPT.py line 191). -/
def DEFAULT_RETRY : Nat := 2

/-- `async_ask_stream` (asyncChatGPT.py lines 191-358).  The whole body runs
under `async with AsyncChatGPT.lock`; both retry paths (lines 301 and 354)
recurse while that non-reentrant lock is still held, which is modelled by
passing `lockHeld := true` to the nested invocation: such an invocation blocks
forever at the lock and is recorded as `deadlock`.  The timeout retry passes
`remaining_retry - 1`; the injection-failure retry passes no argument, hence
the default `DEFAULT_RETRY`.  Both retries run `async_refresh_session` first
(modelled by `env.retryRefresh`). -/
def asyncAskStream (prompt : String) : List AttemptEnv → Session → ConvState → Bool → Nat → StreamRun
  | envs, session, conv, lockHeld, budget =>
    if lockHeld then ⟨.deadlock, [], [budget], 0, [], session, conv⟩
    else if budget = 0 then ⟨.networkError, [], [budget], 0, [], session, conv⟩
    else
      match envs with
      | [] => ⟨.outOfModel, [], [budget], 0, [], session, conv⟩
      | env :: rest =>
        let session1 := if session = ([] : Session) then env.startRefresh else session
        if hasAccessToken session1 then
          let req := buildRequest env.newMessageId prompt asyncModelName conv
          if env.injectionOk then
            let p := asyncPollLoop env.observations ⟨"", conv.parent_message_id, conv.conversation_id⟩ none
            let conv1 : ConvState := ⟨p.state.parent_message_id, p.state.conversation_id⟩
            match p.exit with
            | .eofBreak => ⟨.ok, p.chunks, [budget], 1, [req], session1, conv1⟩
            | .errorRaise => ⟨.responseError, p.chunks, [budget], 1, [req], session1, conv1⟩
            | .exhausted => ⟨.outOfModel, p.chunks, [budget], 1, [req], session1, conv1⟩
            | .timeoutExit =>
              let r := asyncAskStream prompt rest env.retryRefresh conv1 true (budget - 1)
              ⟨r.outcome, p.chunks ++ r.chunks, budget :: r.budgets, 1 + r.injections,
               req :: r.requests, r.session, r.conv⟩
          else
            let r := asyncAskStream prompt rest env.retryRefresh conv true DEFAULT_RETRY
            ⟨r.outcome, r.chunks, budget :: r.budgets, 1 + r.injections,
             req :: r.requests, r.session, r.conv⟩
        else ⟨.notLoggedIn, [], [budget], 0, [], session1, conv⟩

/-- Environment of one attempt of `async_ask`: the environments of the inner
`async_ask_stream` call and the session produced by the refresh preceding an
empty-response retry. -/
structure AskAttemptEnv where
  streamEnvs : List AttemptEnv
  refresh : Session
deriving DecidableEq

inductive AskOutcome where
  | ok (response : String)
  | networkError
  | notLoggedIn
  | responseError
  | deadlock
  | outOfModel
deriving DecidableEq

structure AskRun where
  outcome : AskOutcome
  budgets : List Nat
  session : Session
  conv : ConvState
deriving DecidableEq

/-- Python `''.join(response)` over the yielded chunks. -/
def joinChunks (chunks : List String) : String := String.mk (chunks.map String.data).flatten

/-- `async_ask` (asyncChatGPT.py lines 496-517): raise `ChatGPTResponseError`
once `remaining_retry` reaches zero; otherwise drain `async_ask_stream`
(default budget), join a non-empty chunk list, and on an empty one refresh the
session and recurse with `remaining_retry - 1`.  An exception from the stream
propagates. -/
def asyncAsk (message : String) : List AskAttemptEnv → Session → ConvState → Nat → AskRun
  | _, session, conv, 0 => ⟨.responseError, [0], session, conv⟩
  | [], session, conv, b+1 => ⟨.outOfModel, [b+1], session, conv⟩
  | env :: rest, session, conv, b+1 =>
    let r := asyncAskStream message env.streamEnvs session conv false DEFAULT_RETRY
    match r.outcome with
    | .ok =>
      if r.chunks = [] then
        let rr := asyncAsk message rest env.refresh r.conv b
        ⟨rr.outcome, (b+1) :: rr.budgets, rr.session, rr.conv⟩
      else ⟨.ok (joinChunks r.chunks), [b+1], r.session, r.conv⟩
    | .networkError => ⟨.networkError, [b+1], r.session, r.conv⟩
    | .notLoggedIn => ⟨.notLoggedIn, [b+1], r.session, r.conv⟩
    | .responseError => ⟨.responseError, [b+1], r.session, r.conv⟩
    | .deadlock => ⟨.deadlock, [b+1], r.session, r.conv⟩
    | .outOfModel => ⟨.outOfModel, [b+1], r.session, r.conv⟩

/-- The message the sync `ask_stream` yields (instead of raising) when the
session has no access token (chatgpt.py lines 187-191). -/
def notUsableMessage : String :=
  "Your ChatGPT session is not usable.\n* Run this program with the `install` parameter and log in to ChatGPT.\n* If you think you are already logged in, try running the `session` command."

/-- How a sync `ask_stream` call ends.  `finished`: the generator completed
normally (including the not-logged-in yield path and the decode-failure tips
path).  `evalRaised`: `page.evaluate` raised and the exception propagated.
`modelKeyError`: `RENDER_MODELS[self.model]` raised `KeyError`.  `outOfModel`:
the supplied observations ran out with the loop still running. -/
inductive SyncOutcome where
  | finished
  | evalRaised
  | modelKeyError
  | outOfModel
deriving DecidableEq

structure SyncRun where
  outcome : SyncOutcome
  chunks : List String
  injections : Nat
  requests : List RequestPayload
  session : Session
  conv : ConvState
deriving DecidableEq

/-- Environment of one sync `ask_stream` call: the session
`self.browser.refresh_session()` leaves behind if invoked, the
`uuid.uuid4()` for `new_message_id`, whether `page.evaluate` succeeds, and the
polling observations. -/
structure SyncEnv where
  refreshedSession : Session
  newMessageId : String
  injectionOk : Bool
  observations : List Observation
deriving DecidableEq

/-- Instance state of the sync `ChatGPT` client used by `ask_stream`. -/
structure SyncState where
  session : Session
  model : String
  conv : ConvState
deriving DecidableEq

/-- The sync `ask_stream` (chatgpt.py lines 180-307): refresh if the session
lacks the token, then, if it still lacks it, yield `notUsableMessage` and
return (no exception and no injection); otherwise build the request, inject
it, and run the polling loop. -/
def sync_ask_stream (prompt : String) (env : SyncEnv) (st : SyncState) : SyncRun :=
  let session := if hasAccessToken st.session then st.session else env.refreshedSession
  if hasAccessToken session then
    match RENDER_MODELS.lookup st.model with
    | none => ⟨.modelKeyError, [], 0, [], session, st.conv⟩
    | some model =>
      let req := buildRequest env.newMessageId prompt model st.conv
      if env.injectionOk then
        let p := syncPollLoop env.observations ⟨"", st.conv.parent_message_id, st.conv.conversation_id⟩
        let conv1 : ConvState := ⟨p.state.parent_message_id, p.state.conversation_id⟩
        match p.exit with
        | .exhausted => ⟨.outOfModel, p.chunks, 1, [req], session, conv1⟩
        | _ => ⟨.finished, p.chunks, 1, [req], session, conv1⟩
      else ⟨.evalRaised, [], 1, [req], session, st.conv⟩
  else ⟨.finished, [notUsableMessage], 0, [], session, st.conv⟩

/-- An apostrophe, kept out of string literals. -/
def sq : String := String.singleton (Char.ofNat 39)

/-- The fallback string `ask` returns when the stream yields no chunks
(chatgpt.py line 323). -/
def unusableResponseMessage : String :=
  "Unusable response produced, maybe login session expired. Try " ++ sq ++
    "pkill firefox" ++ sq ++ " and " ++ sq ++ "chatgpt install" ++ sq

/-- The sync `ask` (chatgpt.py lines 309-324): drain `ask_stream`; if it
finished with a non-empty chunk list, return the chunk concatenation
(`reduce(operator.add, response)`), else the fixed fallback string.  An
exception from the generator propagates (`none`). -/
def sync_ask (message : String) (env : SyncEnv) (st : SyncState) : Option String × SyncRun :=
  let r := sync_ask_stream message env st
  match r.outcome with
  | .finished =>
      (some (if r.chunks = [] then unusableResponseMessage else joinChunks r.chunks), r)
  | _ => (none, r)

def lbrace : Char := Char.ofNat 123
def rbrace : Char := Char.ofNat 125

/-- `contents.find("\x7b")` of asyncChatGPT.py line 166: index of the first
left brace, `none` when absent (Python -1, which raises there). -/
def firstBraceIdx (cs : List Char) : Option Nat := cs.findIdx? (· == lbrace)

/-- The reverse scan of asyncChatGPT.py lines 169-175: the index of the last
right brace, `none` when absent. -/
def lastCloseIdx (cs : List Char) : Option Nat :=
  match cs.reverse.findIdx? (· == rbrace) with
  | none => none
  | some k => some (cs.length - 1 - k)

/-- `contents[start:end+1]` of asyncChatGPT.py line 176 (empty when the last
right brace precedes the first left brace, as in Python slicing). -/
def extractJsonSpan (cs : List Char) : Option (List Char) :=
  match firstBraceIdx cs with
  | none => none
  | some start =>
    match lastCloseIdx cs with
    | none => none
    | some stop => some ((cs.drop start).take (stop + 1 - start))

/-- The session-updating core of `async_refresh_session` (asyncChatGPT.py
lines 161-182).  `parse` stands for the external `json.loads`; either brace
missing raises `JSONDecodeError`, and any `JSONDecodeError` is caught leaving
the stored session untouched; on success the single assignment
`AsyncChatGPT.session = json.loads(contents)` replaces it wholesale. -/
def async_refresh_session (parse : List Char → Option Session)
    (contents : List Char) (old : Session) : Session :=
  match extractJsonSpan contents with
  | none => old
  | some span =>
    match parse span with
    | none => old
    | some s => s

/-- The cumulative message an observation carries, if its marker holds a
parsed non-null event. -/
def obsMsg (o : Observation) : Option String :=
  match o.streamDiv with
  | some (.event e) => some (String.intercalate "\n" e.parts)
  | _ => none

def obsMsgs (obs : List Observation) : List String := obs.filterMap obsMsg

/-- Boolean list-prefix test. -/
def listStartsWith : List Char → List Char → Bool
  | [], _ => true
  | _ :: _, [] => false
  | a :: as, b :: bs => a == b && listStartsWith as bs

/-- `a` is an initial segment of `b`. -/
def strGrows (a b : String) : Bool := listStartsWith a.data b.data

/-- Each message extends the previous one (the streamed cumulative messages of
one turn). -/
def prefixChain : String → List String → Bool
  | _, [] => true
  | prev, m :: rest => strGrows prev m && prefixChain m rest

/-- The lengths of the listed strings are non-decreasing, starting from `n`. -/
def lenMono : Nat → List String → Bool
  | _, [] => true
  | n, m :: rest => decide (n ≤ m.length) && lenMono m.length rest

/-- No observation of the turn carries an undecodable marker payload. -/
def noInvalid (obs : List Observation) : Bool :=
  obs.all fun o =>
    match o.streamDiv with
    | some .invalid => false
    | _ => true

/-- Fold returning the (messageId, conversationId) of the last listed event,
or the supplied pair when there is none. -/
def lastEvtPair : String × Option String → List StreamEvent → String × Option String
  | p, [] => p
  | _, e :: rest => lastEvtPair (e.messageId, e.conversationId) rest

def strictlyDecreasing : List Nat → Bool
  | a :: b :: rest => decide (b < a) && strictlyDecreasing (b :: rest)
  | _ => true

/-- Each budget in the list is either the decrement of its predecessor (the
timeout retry) or the default (the injection-failure retry). -/
def budgetSteps : List Nat → Bool
  | a :: b :: rest => (b == a - 1 || b == DEFAULT_RETRY) && budgetSteps (b :: rest)
  | _ => true

/-- Each budget in the list is the decrement of its predecessor. -/
def budgetDecr : List Nat → Bool
  | a :: b :: rest => (b == a - 1) && budgetDecr (b :: rest)
  | _ => true

/-- A session holding an access token. -/
def tokSession : Session := [("accessToken", "tok")]

def tokSession2 : Session := [("accessToken", "tok2")]

/-- An attempt whose polling times out immediately with no message ever
produced: the first time check already finds the budget elapsed and no stream
div present. -/
def timeoutObsList : List Observation := [⟨true, false, none⟩]

def timeoutEnv : AttemptEnv := ⟨[], tokSession, "uuid-new", true, timeoutObsList⟩

/-- An attempt whose `page.evaluate` raises. -/
def injFailEnv : AttemptEnv := ⟨[], tokSession2, "uuid-new", false, []⟩

def evHello : StreamEvent := ⟨"msg-1", some "conv-1", ["Hello"]⟩

/-- A turn that parses one good event and then hits an undecodable payload. -/
def badTurnObsList : List Observation :=
  [⟨false, false, some (.event evHello)⟩, ⟨false, false, some .invalid⟩]

def badTurnEnv : AttemptEnv := ⟨[], tokSession, "uuid-new", true, badTurnObsList⟩

/-- The two-event "Good night!" streaming scenario. -/
def goodObsList : List Observation :=
  [⟨false, false, some (.event ⟨"msg-a", some "conv-a", ["Good "]⟩)⟩,
   ⟨false, true, some (.event ⟨"msg-b", some "conv-a", ["Good night!"]⟩)⟩]

/-- A turn whose stream marker stays empty and whose eof marker appears at
once: zero chunks. -/
def emptyEofObsList : List Observation := [⟨false, true, some .empty⟩]

def syncOkEnv : SyncEnv := ⟨[], "uuid-new", true, emptyEofObsList⟩

def syncOkState : SyncState := ⟨tokSession, "default", ⟨"p0", none⟩⟩

/-- A sync client with no token whose refresh also fails to produce one. -/
def noTokenSyncEnv : SyncEnv := ⟨[], "uuid-new", true, []⟩

def emptyObs : Observation := ⟨false, false, some MarkerContent.empty⟩

/-- An async attempt environment whose start refresh also fails to produce a
token. -/
def noTokenEnv : AttemptEnv := ⟨[], [], "uuid-new", true, []⟩

def noTokenSyncState : SyncState := ⟨[], "default", ⟨"p0", none⟩⟩

theorem string_data_inj (a b : String) (h : a.data = b.data) : a = b := by
  cases a
  cases b
  exact congrArg String.mk h

theorem strLength_data (s : String) : s.length = s.data.length := rfl

theorem listStartsWith_append_drop (p : List Char) :
    ∀ l, listStartsWith p l = true → p ++ l.drop p.length = l := by
  induction p with
  | nil => intro l _; simp
  | cons a as ih =>
    intro l h
    cases l with
    | nil => simp [listStartsWith] at h
    | cons b bs =>
      simp only [listStartsWith, Bool.and_eq_true, beq_iff_eq] at h
      obtain ⟨h1, h2⟩ := h
      subst h1
      simp [ih bs h2]

theorem listStartsWith_length_le (p : List Char) :
    ∀ l, listStartsWith p l = true → p.length ≤ l.length := by
  induction p with
  | nil => intro l _; simp
  | cons a as ih =>
    intro l h
    cases l with
    | nil => simp [listStartsWith] at h
    | cons b bs =>
      simp only [listStartsWith, Bool.and_eq_true, beq_iff_eq] at h
      simpa using ih bs h.2

theorem asyncPollLoop_diff (obs : List Observation) :
    ∀ (s : IterState) (full : Option String),
      prefixChain s.last_event_msg (obsMsgs obs) = true →
      (asyncPollLoop obs s full).state.last_event_msg.data
          = s.last_event_msg.data ++ ((asyncPollLoop obs s full).chunks.map String.data).flatten
        ∧ lenMono s.last_event_msg.length (asyncPollLoop obs s full).msgs = true := by
  induction obs with
  | nil =>
    intro s full _
    simp [asyncPollLoop, lenMono]
  | cons o rest ih =>
    intro s full h
    obtain ⟨eo, eof, sd⟩ := o
    by_cases hel : (eo && full.isNone) = true
    · simp [asyncPollLoop, hel, lenMono]
    · cases sd with
      | none =>
        have hm : obsMsgs (Observation.mk eo eof none :: rest) = obsMsgs rest := by
          simp [obsMsgs, obsMsg]
        rw [hm] at h
        simpa [asyncPollLoop, hel] using ih s full h
      | some c =>
        cases c with
        | empty =>
          have hm : obsMsgs (Observation.mk eo eof (some .empty) :: rest) = obsMsgs rest := by
            simp [obsMsgs, obsMsg]
          rw [hm] at h
          by_cases heof : eof = true
          · simp [asyncPollLoop, hel, parseMarker, heof, lenMono]
          · simpa [asyncPollLoop, hel, parseMarker, heof] using ih s none h
        | jsonNull =>
          have hm : obsMsgs (Observation.mk eo eof (some .jsonNull) :: rest) = obsMsgs rest := by
            simp [obsMsgs, obsMsg]
          rw [hm] at h
          by_cases heof : eof = true
          · simp [asyncPollLoop, hel, parseMarker, heof, lenMono]
          · simpa [asyncPollLoop, hel, parseMarker, heof] using ih s none h
        | invalid =>
          simp [asyncPollLoop, hel, parseMarker, lenMono]
        | event e =>
          have hm : obsMsgs (Observation.mk eo eof (some (.event e)) :: rest)
              = String.intercalate "\n" e.parts :: obsMsgs rest := by
            simp [obsMsgs, obsMsg]
          rw [hm] at h
          simp only [prefixChain, Bool.and_eq_true] at h
          obtain ⟨h1, h2⟩ := h
          have hpre : s.last_event_msg.data
              ++ (String.intercalate "\n" e.parts).data.drop s.last_event_msg.length
              = (String.intercalate "\n" e.parts).data := by
            rw [strLength_data]
            exact listStartsWith_append_drop _ _ h1
          have hlen : s.last_event_msg.data.length ≤ (String.intercalate "\n" e.parts).data.length :=
            listStartsWith_length_le _ _ h1
          by_cases heof : eof = true
          · simp only [asyncPollLoop, hel, parseMarker, heof]
            simp [strDrop, lenMono]
            exact ⟨hpre.symm, hlen⟩
          · have ih2 := ih ⟨String.intercalate "\n" e.parts, e.messageId, e.conversationId⟩
              (some (String.intercalate "\n" e.parts)) h2
            obtain ⟨ih2a, ih2b⟩ := ih2
            simp only [asyncPollLoop, hel, parseMarker, heof]
            simp [strDrop, lenMono]
            refine ⟨?_, hlen, ih2b⟩
            rw [ih2a]
            dsimp only
            rw [← List.append_assoc, hpre]

theorem syncPollLoop_diff (obs : List Observation) :
    ∀ (s : IterState),
      prefixChain s.last_event_msg (obsMsgs obs) = true →
      noInvalid obs = true →
      (syncPollLoop obs s).state.last_event_msg.data
          = s.last_event_msg.data ++ ((syncPollLoop obs s).chunks.map String.data).flatten
        ∧ lenMono s.last_event_msg.length (syncPollLoop obs s).msgs = true := by
  induction obs with
  | nil =>
    intro s _ _
    simp [syncPollLoop, lenMono]
  | cons o rest ih =>
    intro s h hni
    obtain ⟨eo, eof, sd⟩ := o
    have hni2 : noInvalid rest = true := by
      simp only [noInvalid, List.all_cons, Bool.and_eq_true] at hni
      exact hni.2
    cases sd with
    | none =>
      have hm : obsMsgs (Observation.mk eo eof none :: rest) = obsMsgs rest := by
        simp [obsMsgs, obsMsg]
      rw [hm] at h
      simpa [syncPollLoop] using ih s h hni2
    | some c =>
      cases c with
      | empty =>
        have hm : obsMsgs (Observation.mk eo eof (some .empty) :: rest) = obsMsgs rest := by
          simp [obsMsgs, obsMsg]
        rw [hm] at h
        by_cases heof : eof = true
        · simp [syncPollLoop, parseMarker, heof, lenMono]
        · by_cases helo : eo = true
          · simp [syncPollLoop, parseMarker, heof, helo, lenMono]
          · simpa [syncPollLoop, parseMarker, heof, helo] using ih s h hni2
      | jsonNull =>
        have hm : obsMsgs (Observation.mk eo eof (some .jsonNull) :: rest) = obsMsgs rest := by
          simp [obsMsgs, obsMsg]
        rw [hm] at h
        by_cases heof : eof = true
        · simp [syncPollLoop, parseMarker, heof, lenMono]
        · by_cases helo : eo = true
          · simp [syncPollLoop, parseMarker, heof, helo, lenMono]
          · simpa [syncPollLoop, parseMarker, heof, helo] using ih s h hni2
      | invalid =>
        simp [noInvalid] at hni
      | event e =>
        have hm : obsMsgs (Observation.mk eo eof (some (.event e)) :: rest)
            = String.intercalate "\n" e.parts :: obsMsgs rest := by
          simp [obsMsgs, obsMsg]
        rw [hm] at h
        simp only [prefixChain, Bool.and_eq_true] at h
        obtain ⟨h1, h2⟩ := h
        have hpre : s.last_event_msg.data
            ++ (String.intercalate "\n" e.parts).data.drop s.last_event_msg.length
            = (String.intercalate "\n" e.parts).data := by
          rw [strLength_data]
          exact listStartsWith_append_drop _ _ h1
        have hlen : s.last_event_msg.data.length ≤ (String.intercalate "\n" e.parts).data.length :=
          listStartsWith_length_le _ _ h1
        by_cases heof : eof = true
        · simp only [syncPollLoop, parseMarker, heof]
          simp [strDrop, lenMono]
          exact ⟨hpre.symm, hlen⟩
        · have ih2 := ih ⟨String.intercalate "\n" e.parts, e.messageId, e.conversationId⟩ h2 hni2
          obtain ⟨ih2a, ih2b⟩ := ih2
          simp only [syncPollLoop, parseMarker, heof]
          simp [strDrop, lenMono]
          refine ⟨?_, hlen, ih2b⟩
          rw [ih2a]
          dsimp only
          rw [← List.append_assoc, hpre]

theorem asyncPollLoop_events (obs : List Observation) :
    ∀ (s : IterState) (full : Option String),
      ((asyncPollLoop obs s full).state.parent_message_id,
        (asyncPollLoop obs s full).state.conversation_id)
        = lastEvtPair (s.parent_message_id, s.conversation_id) (asyncPollLoop obs s full).events := by
  induction obs with
  | nil => intro s full; simp [asyncPollLoop, lastEvtPair]
  | cons o rest ih =>
    intro s full
    obtain ⟨eo, eof, sd⟩ := o
    by_cases hel : (eo && full.isNone) = true
    · simp [asyncPollLoop, hel, lastEvtPair]
    · cases sd with
      | none => simpa [asyncPollLoop, hel] using ih s full
      | some c =>
        cases c with
        | empty =>
          by_cases heof : eof = true
          · simp [asyncPollLoop, hel, parseMarker, heof, lastEvtPair]
          · simpa [asyncPollLoop, hel, parseMarker, heof] using ih s none
        | jsonNull =>
          by_cases heof : eof = true
          · simp [asyncPollLoop, hel, parseMarker, heof, lastEvtPair]
          · simpa [asyncPollLoop, hel, parseMarker, heof] using ih s none
        | invalid =>
          simp [asyncPollLoop, hel, parseMarker, lastEvtPair]
        | event e =>
          by_cases heof : eof = true
          · simp [asyncPollLoop, hel, parseMarker, heof, eventsOf, lastEvtPair]
          · have ih2 := ih ⟨String.intercalate "\n" e.parts, e.messageId, e.conversationId⟩
              (some (String.intercalate "\n" e.parts))
            simpa [asyncPollLoop, hel, parseMarker, heof, eventsOf, lastEvtPair] using ih2

theorem syncPollLoop_events (obs : List Observation) :
    ∀ (s : IterState),
      ((syncPollLoop obs s).state.parent_message_id,
        (syncPollLoop obs s).state.conversation_id)
        = lastEvtPair (s.parent_message_id, s.conversation_id) (syncPollLoop obs s).events := by
  induction obs with
  | nil => intro s; simp [syncPollLoop, lastEvtPair]
  | cons o rest ih =>
    intro s
    obtain ⟨eo, eof, sd⟩ := o
    cases sd with
    | none => simpa [syncPollLoop] using ih s
    | some c =>
      cases c with
      | empty =>
        by_cases heof : eof = true
        · simp [syncPollLoop, parseMarker, heof, lastEvtPair]
        · by_cases helo : eo = true
          · simp [syncPollLoop, parseMarker, heof, helo, lastEvtPair]
          · simpa [syncPollLoop, parseMarker, heof, helo] using ih s
      | jsonNull =>
        by_cases heof : eof = true
        · simp [syncPollLoop, parseMarker, heof, lastEvtPair]
        · by_cases helo : eo = true
          · simp [syncPollLoop, parseMarker, heof, helo, lastEvtPair]
          · simpa [syncPollLoop, parseMarker, heof, helo] using ih s
      | invalid =>
        simp [syncPollLoop, parseMarker, lastEvtPair]
      | event e =>
        by_cases heof : eof = true
        · simp [syncPollLoop, parseMarker, heof, eventsOf, lastEvtPair]
        · have ih2 := ih ⟨String.intercalate "\n" e.parts, e.messageId, e.conversationId⟩
          simpa [syncPollLoop, parseMarker, heof, eventsOf, lastEvtPair] using ih2

theorem asyncAskStream_budgets_head (prompt : String) (envs : List AttemptEnv)
    (sess : Session) (conv : ConvState) (lockHeld : Bool) (b : Nat) :
    ∃ t, (asyncAskStream prompt envs sess conv lockHeld b).budgets = b :: t := by
  cases envs <;> simp only [asyncAskStream] <;> repeat' split
  all_goals exact ⟨_, rfl⟩

theorem asyncAskStream_budgetSteps (prompt : String) (envs : List AttemptEnv) :
    ∀ (sess : Session) (conv : ConvState) (lockHeld : Bool) (b : Nat),
      budgetSteps (asyncAskStream prompt envs sess conv lockHeld b).budgets = true := by
  induction envs with
  | nil =>
    intro sess conv lockHeld b
    simp only [asyncAskStream]
    repeat' split
    all_goals rfl
  | cons env rest ih =>
    intro sess conv lockHeld b
    have key : ∀ (S : Session) (C : ConvState) (B : Nat),
        B = b - 1 ∨ B = DEFAULT_RETRY →
        budgetSteps (b :: (asyncAskStream prompt rest S C true B).budgets) = true := by
      intro S C B hB
      obtain ⟨t, ht⟩ := asyncAskStream_budgets_head prompt rest S C true B
      have hsteps := ih S C true B
      rw [ht] at hsteps ⊢
      simp only [budgetSteps, Bool.and_eq_true, Bool.or_eq_true, beq_iff_eq]
      exact ⟨hB, hsteps⟩
    simp only [asyncAskStream]
    repeat' split
    all_goals dsimp only
    all_goals try rfl
    all_goals first
      | exact key _ _ _ (Or.inl rfl)
      | exact key _ _ _ (Or.inr rfl)

theorem asyncAsk_budgets_head (message : String) (aenvs : List AskAttemptEnv)
    (sess : Session) (conv : ConvState) (n : Nat) :
    ∃ t, (asyncAsk message aenvs sess conv n).budgets = n :: t := by
  cases n <;> cases aenvs <;> simp only [asyncAsk] <;> repeat' split
  all_goals exact ⟨_, rfl⟩

theorem asyncAsk_budgetDecr (message : String) (aenvs : List AskAttemptEnv) :
    ∀ (sess : Session) (conv : ConvState) (n : Nat),
      budgetDecr (asyncAsk message aenvs sess conv n).budgets = true := by
  induction aenvs with
  | nil =>
    intro sess conv n
    cases n <;> simp [asyncAsk, budgetDecr]
  | cons env rest ih =>
    intro sess conv n
    cases n with
    | zero => simp [asyncAsk, budgetDecr]
    | succ b =>
      have key : ∀ (S : Session) (C : ConvState),
          budgetDecr ((b+1) :: (asyncAsk message rest S C b).budgets) = true := by
        intro S C
        obtain ⟨t, ht⟩ := asyncAsk_budgets_head message rest S C b
        have hsteps := ih S C b
        rw [ht] at hsteps ⊢
        simp only [budgetDecr, Bool.and_eq_true, beq_iff_eq]
        exact ⟨rfl, hsteps⟩
      simp only [asyncAsk]
      repeat' split
      all_goals dsimp only
      all_goals try rfl
      all_goals exact key _ _

/-- Claim C1: for every turn of the streaming ask operation
(async_ask_stream / ask_stream), across the polling iterations of that turn
(whose events carry cumulative messages, each extending the previous one, and
none of which is undecodable), the length of the cumulative observed message is
non-decreasing, and the concatenation, in order, of all deltas yielded to the
caller equals the final cumulative message. -/
theorem streaming_diff_roundtrip (obs : List Observation) (p : String) (c : Option String)
    (hchain : prefixChain "" (obsMsgs obs) = true) (hclean : noInvalid obs = true) :
    ((asyncPollLoop obs ⟨"", p, c⟩ none).state.last_event_msg
        = joinChunks (asyncPollLoop obs ⟨"", p, c⟩ none).chunks
      ∧ lenMono 0 (asyncPollLoop obs ⟨"", p, c⟩ none).msgs = true)
    ∧ ((syncPollLoop obs ⟨"", p, c⟩).state.last_event_msg
        = joinChunks (syncPollLoop obs ⟨"", p, c⟩).chunks
      ∧ lenMono 0 (syncPollLoop obs ⟨"", p, c⟩).msgs = true) := by
  have ha := asyncPollLoop_diff obs ⟨"", p, c⟩ none hchain
  have hs := syncPollLoop_diff obs ⟨"", p, c⟩ hchain hclean
  refine ⟨⟨?_, ?_⟩, ?_, ?_⟩
  · apply string_data_inj
    rw [ha.1]
    simp [joinChunks]
  · exact ha.2
  · apply string_data_inj
    rw [hs.1]
    simp [joinChunks]
  · exact hs.2

/-- Witness for C1 on the two-event "Good night!" scenario (deltas
"Good " and "night!"). -/
theorem streaming_diff_roundtrip_witness :
    (prefixChain "" (obsMsgs goodObsList) = true ∧ noInvalid goodObsList = true)
    ∧ (((asyncPollLoop goodObsList ⟨"", "p0", none⟩ none).state.last_event_msg
          = joinChunks (asyncPollLoop goodObsList ⟨"", "p0", none⟩ none).chunks
        ∧ lenMono 0 (asyncPollLoop goodObsList ⟨"", "p0", none⟩ none).msgs = true)
      ∧ ((syncPollLoop goodObsList ⟨"", "p0", none⟩).state.last_event_msg
          = joinChunks (syncPollLoop goodObsList ⟨"", "p0", none⟩).chunks
        ∧ lenMono 0 (syncPollLoop goodObsList ⟨"", "p0", none⟩).msgs = true)) :=
  ⟨⟨by decide, by decide⟩,
    streaming_diff_roundtrip goodObsList "p0" none (by decide) (by decide)⟩

/-- Claim C2 (code-bug evidence): with a usable session, budget 2 and every
attempt timing out with no message, async_ask_stream does not retry once per
remaining budget unit and never raises NetworkError; its first timeout retry
recursively re-enters the `async with AsyncChatGPT.lock` region already held
by the same task and blocks forever.  The model records a deadlock after the
invocation budgets [2, 1]. -/
theorem timeout_retry_deadlocks_run :
    (asyncAskStream "hi" [timeoutEnv, timeoutEnv, timeoutEnv] tokSession ⟨"p0", none⟩ false 2).outcome
        = StreamOutcome.deadlock
    ∧ (asyncAskStream "hi" [timeoutEnv, timeoutEnv, timeoutEnv] tokSession ⟨"p0", none⟩ false 2).budgets
        = [2, 1] := by decide

/-- Claim C3 counterexample: a sync session lacking the access token after
refresh does not make ask_stream raise NotLoggedIn; the generator finishes
normally, yielding the fixed not-usable message as an ordinary chunk, with no
injection performed. -/
theorem sync_missing_token_yields_not_raises :
    (sync_ask_stream "hi" noTokenSyncEnv noTokenSyncState).outcome = SyncOutcome.finished
    ∧ (sync_ask_stream "hi" noTokenSyncEnv noTokenSyncState).chunks = [notUsableMessage]
    ∧ (sync_ask_stream "hi" noTokenSyncEnv noTokenSyncState).injections = 0 := by decide

/-- Claim C3 (amended): for every session that (after any refresh attempt)
lacks "accessToken", the async implementation raises NotLoggedIn without
performing any injection, while the sync implementation performs no injection
either but does not raise: it yields the fixed session-not-usable message and
finishes normally. -/
theorem missing_token_no_injection :
    ∀ (prompt : String) (env : AttemptEnv) (rest : List AttemptEnv) (sess : Session)
      (conv : ConvState) (b : Nat) (senv : SyncEnv) (st : SyncState),
      b ≠ 0 →
      hasAccessToken (if sess = ([] : Session) then env.startRefresh else sess) = false →
      hasAccessToken (if hasAccessToken st.session then st.session else senv.refreshedSession) = false →
      ((asyncAskStream prompt (env :: rest) sess conv false b).outcome = StreamOutcome.notLoggedIn
        ∧ (asyncAskStream prompt (env :: rest) sess conv false b).injections = 0
        ∧ (asyncAskStream prompt (env :: rest) sess conv false b).requests = [])
      ∧ ((sync_ask_stream prompt senv st).outcome = SyncOutcome.finished
        ∧ (sync_ask_stream prompt senv st).chunks = [notUsableMessage]
        ∧ (sync_ask_stream prompt senv st).injections = 0
        ∧ (sync_ask_stream prompt senv st).requests = []) := by
  intro prompt env rest sess conv b senv st hb ha hs
  constructor
  · simp only [asyncAskStream]
    simp [hb, ha]
  · simp only [sync_ask_stream]
    simp [hs]

/-- Witness for the amended C3 at a concrete token-less async and sync
session. -/
theorem missing_token_no_injection_witness :
    ((2 : Nat) ≠ 0
      ∧ hasAccessToken
          (if ([] : Session) = ([] : Session) then noTokenEnv.startRefresh else ([] : Session)) = false
      ∧ hasAccessToken
          (if hasAccessToken noTokenSyncState.session then noTokenSyncState.session
            else noTokenSyncEnv.refreshedSession) = false)
    ∧ (((asyncAskStream "hi" (noTokenEnv :: []) ([] : Session) ⟨"p0", none⟩ false 2).outcome
            = StreamOutcome.notLoggedIn
        ∧ (asyncAskStream "hi" (noTokenEnv :: []) ([] : Session) ⟨"p0", none⟩ false 2).injections = 0
        ∧ (asyncAskStream "hi" (noTokenEnv :: []) ([] : Session) ⟨"p0", none⟩ false 2).requests = [])
      ∧ ((sync_ask_stream "hi" noTokenSyncEnv noTokenSyncState).outcome = SyncOutcome.finished
        ∧ (sync_ask_stream "hi" noTokenSyncEnv noTokenSyncState).chunks = [notUsableMessage]
        ∧ (sync_ask_stream "hi" noTokenSyncEnv noTokenSyncState).injections = 0
        ∧ (sync_ask_stream "hi" noTokenSyncEnv noTokenSyncState).requests = [])) :=
  ⟨⟨by decide, by decide, by decide⟩,
    missing_token_no_injection "hi" noTokenEnv [] [] ⟨"p0", none⟩ 2 noTokenSyncEnv noTokenSyncState
      (by decide) (by decide) (by decide)⟩

/-- Claim C4 counterexample: a failed turn does not leave the conversation
state unchanged: a turn that parses one event and then raises
ChatGPTResponseError keeps the (parent_message_id, conversation_id) written by
the intermediate event. -/
theorem failed_turn_mutates_conversation_state :
    (asyncAskStream "hi" [badTurnEnv] tokSession ⟨"p0", none⟩ false 2).outcome
        = StreamOutcome.responseError
    ∧ (asyncAskStream "hi" [badTurnEnv] tokSession ⟨"p0", none⟩ false 2).conv
        ≠ ConvState.mk "p0" none := by decide

/-- Claim C4 (amended): in both implementations, (parent_message_id,
conversation_id) is updated by every polling iteration that parses a non-null
event, taking the values of that event; hence after any exit of the loop
(success, timeout, or error) the pair equals the values of the last parsed
event of the turn, and is unchanged only when the turn parsed no event. -/
theorem conversation_state_tracks_parsed_events :
    ∀ (obs : List Observation) (s : IterState) (full : Option String),
      ((asyncPollLoop obs s full).state.parent_message_id,
        (asyncPollLoop obs s full).state.conversation_id)
        = lastEvtPair (s.parent_message_id, s.conversation_id) (asyncPollLoop obs s full).events
      ∧ ((syncPollLoop obs s).state.parent_message_id,
          (syncPollLoop obs s).state.conversation_id)
        = lastEvtPair (s.parent_message_id, s.conversation_id) (syncPollLoop obs s).events :=
  fun obs s full => ⟨asyncPollLoop_events obs s full, syncPollLoop_events obs s⟩

/-- Claim C5 (code-bug evidence): an attempt with remaining_retry = 1 whose
page.evaluate raises does refresh the session, but then calls
async_ask_stream(prompt) with the default budget 2 instead of the failed
attempt's budget, and that nested call deadlocks re-acquiring the held
class-level lock. -/
theorem injection_failure_retry_run :
    (asyncAskStream "hi" [injFailEnv, injFailEnv] tokSession ⟨"p0", none⟩ false 1).outcome
        = StreamOutcome.deadlock
    ∧ (asyncAskStream "hi" [injFailEnv, injFailEnv] tokSession ⟨"p0", none⟩ false 1).budgets
        = [1, DEFAULT_RETRY]
    ∧ (asyncAskStream "hi" [injFailEnv, injFailEnv] tokSession ⟨"p0", none⟩ false 1).session
        = tokSession2 := by decide

/-- Claim C6 counterexample: the chain made of an attempt with budget 2 whose
injection fails and its retry has invocation budgets [2, 2], which is not
strictly decreasing. -/
theorem retry_budgets_not_strictly_decreasing :
    (asyncAskStream "hi" [injFailEnv, injFailEnv] tokSession ⟨"p0", none⟩ false 2).budgets = [2, 2]
    ∧ strictlyDecreasing
        (asyncAskStream "hi" [injFailEnv, injFailEnv] tokSession ⟨"p0", none⟩ false 2).budgets
      = false := by decide

/-- Claim C6 (amended): across every chain of retry invocations, each budget is
either the decrement of its predecessor (the timeout retry of
async_ask_stream) or the default 2 (the injection-failure retry); in
async_ask's empty-response chain the budget strictly decreases; a top-level
async_ask_stream call with budget 0 raises NetworkError and an async_ask call
with budget 0 raises ChatGPTResponseError, never a silently absorbed
failure. -/
theorem retry_budget_discipline :
    ∀ (prompt msg : String) (envs : List AttemptEnv) (aenvs : List AskAttemptEnv)
      (sess sess2 : Session) (conv conv2 : ConvState) (lockHeld : Bool) (b n : Nat),
      budgetSteps (asyncAskStream prompt envs sess conv lockHeld b).budgets = true
      ∧ budgetDecr (asyncAsk msg aenvs sess2 conv2 n).budgets = true
      ∧ (asyncAskStream prompt envs sess conv false 0).outcome = StreamOutcome.networkError
      ∧ (asyncAsk msg aenvs sess2 conv2 0).outcome = AskOutcome.responseError := by
  intro prompt msg envs aenvs sess sess2 conv conv2 lockHeld b n
  refine ⟨asyncAskStream_budgetSteps prompt envs sess conv lockHeld b,
    asyncAsk_budgetDecr msg aenvs sess2 conv2 n, ?_, ?_⟩
  · cases envs <;> rfl
  · cases aenvs <;> rfl

/-- Claim C7: session refresh is atomic with respect to the stored session:
when extracting or parsing the brace-delimited substring of the document
fails, the previously stored session is unchanged, and when parsing succeeds
the session is replaced wholesale by the fully parsed object, so no reader
ever observes a partially written session. -/
theorem refresh_session_atomic :
    ∀ (parse : List Char → Option Session) (contents : List Char) (old : Session),
      ((extractJsonSpan contents).bind parse = none
        ∧ async_refresh_session parse contents old = old)
      ∨ (∃ s, (extractJsonSpan contents).bind parse = some s
        ∧ async_refresh_session parse contents old = s) := by
  intro parse contents old
  cases hex : extractJsonSpan contents with
  | none => exact Or.inl ⟨by simp [hex], by simp [async_refresh_session, hex]⟩
  | some span =>
    cases hp : parse span with
    | none => exact Or.inl ⟨by simp [hex, hp], by simp [async_refresh_session, hex, hp]⟩
    | some s => exact Or.inr ⟨s, by simp [hex, hp], by simp [async_refresh_session, hex, hp]⟩

/-- Claim C8: for every prompt, the request payload injected by the streaming
ask operation is exactly \x7bmessages: [\x7bid: newId, role: "user", content:
\x7bcontent_type: "text", parts: [prompt]\x7d\x7d], model, conversation_id,
parent_message_id, action: "next"\x7d, where newId is the freshly generated
identifier and conversation_id / parent_message_id come from the current
conversation state; the async model string is hard-coded, the sync one comes
from RENDER_MODELS. -/
theorem request_payload_shape :
    ∀ (prompt : String) (env : AttemptEnv) (rest : List AttemptEnv) (sess : Session)
      (conv : ConvState) (b : Nat) (senv : SyncEnv) (st : SyncState) (m : String),
      b ≠ 0 →
      hasAccessToken (if sess = ([] : Session) then env.startRefresh else sess) = true →
      hasAccessToken (if hasAccessToken st.session then st.session else senv.refreshedSession) = true →
      RENDER_MODELS.lookup st.model = some m →
      (asyncAskStream prompt (env :: rest) sess conv false b).requests.head?
        = some ⟨[⟨env.newMessageId, "user", ⟨"text", [prompt]⟩⟩], "text-davinci-002-render-sha",
                conv.conversation_id, conv.parent_message_id, "next"⟩
      ∧ (sync_ask_stream prompt senv st).requests.head?
        = some ⟨[⟨senv.newMessageId, "user", ⟨"text", [prompt]⟩⟩], m,
                st.conv.conversation_id, st.conv.parent_message_id, "next"⟩ := by
  intro prompt env rest sess conv b senv st m hb ha hs hm
  constructor
  · simp only [asyncAskStream]
    simp [hb, ha, buildRequest, asyncModelName]
    by_cases hinj : env.injectionOk = true
    · simp [hinj]
      split <;> simp
    · simp [hinj]
  · simp only [sync_ask_stream]
    simp [hs, hm, buildRequest]
    by_cases hinj : senv.injectionOk = true
    · simp [hinj]
      split <;> simp
    · simp [hinj]

/-- Witness for C8 at a concrete prompt and conversation state. -/
theorem request_payload_shape_witness :
    ((2 : Nat) ≠ 0
      ∧ hasAccessToken
          (if tokSession = ([] : Session) then timeoutEnv.startRefresh else tokSession) = true
      ∧ hasAccessToken
          (if hasAccessToken syncOkState.session then syncOkState.session
            else syncOkEnv.refreshedSession) = true
      ∧ RENDER_MODELS.lookup syncOkState.model = some "text-davinci-002-render-sha")
    ∧ ((asyncAskStream "hi" (timeoutEnv :: []) tokSession ⟨"p0", none⟩ false 2).requests.head?
        = some ⟨[⟨timeoutEnv.newMessageId, "user", ⟨"text", ["hi"]⟩⟩], "text-davinci-002-render-sha",
                (ConvState.mk "p0" none).conversation_id, (ConvState.mk "p0" none).parent_message_id,
                "next"⟩
      ∧ (sync_ask_stream "hi" syncOkEnv syncOkState).requests.head?
        = some ⟨[⟨syncOkEnv.newMessageId, "user", ⟨"text", ["hi"]⟩⟩], "text-davinci-002-render-sha",
                syncOkState.conv.conversation_id, syncOkState.conv.parent_message_id, "next"⟩) :=
  ⟨⟨by decide, by decide, by decide, by decide⟩,
    request_payload_shape "hi" timeoutEnv [] tokSession ⟨"p0", none⟩ 2 syncOkEnv syncOkState
      "text-davinci-002-render-sha" (by decide) (by decide) (by decide) (by decide)⟩

/-- Claim C9: in the sync implementation, when the stream finishes having
yielded zero chunks, ask neither retries nor raises: it returns the fixed
fallback string as if it were the response. -/
theorem sync_ask_empty_fallback :
    ∀ (message : String) (env : SyncEnv) (st : SyncState),
      (sync_ask_stream message env st).outcome = SyncOutcome.finished →
      (sync_ask_stream message env st).chunks = [] →
      (sync_ask message env st).1 = some unusableResponseMessage := by
  intro message env st hf hz
  simp [sync_ask, hf, hz]

/-- Witness for C9: a turn whose stream marker stays empty until eof yields
zero chunks, and ask returns the fallback string. -/
theorem sync_ask_empty_fallback_witness :
    ((sync_ask_stream "hi" syncOkEnv syncOkState).outcome = SyncOutcome.finished
      ∧ (sync_ask_stream "hi" syncOkEnv syncOkState).chunks = [])
    ∧ (sync_ask "hi" syncOkEnv syncOkState).1 = some unusableResponseMessage :=
  ⟨⟨by decide, by decide⟩,
    sync_ask_empty_fallback "hi" syncOkEnv syncOkState (by decide) (by decide)⟩

/-- Claim C10: a polling iteration whose stream marker exists but whose
base64-decoded content is empty yields no delta, leaves the state (and hence
parent_message_id / conversation_id) unchanged, and is silently skipped
rather than treated as an error, in both implementations. -/
theorem empty_marker_payload_skipped :
    ∀ (o : Observation) (rest : List Observation) (s : IterState) (full : Option String),
      o.streamDiv = some MarkerContent.empty →
      (o.elapsedOver && full.isNone) = false →
      (asyncPollLoop (o :: rest) s full
          = if o.eofPresent then ⟨PollExit.eofBreak, s, [], [], []⟩ else asyncPollLoop rest s none)
      ∧ (syncPollLoop (o :: rest) s
          = if o.eofPresent then ⟨PollExit.eofBreak, s, [], [], []⟩
            else if o.elapsedOver then ⟨PollExit.timeoutExit, s, [], [], []⟩
            else syncPollLoop rest s) := by
  intro o rest s full he hc
  obtain ⟨eo, eof, sd⟩ := o
  dsimp only at he hc ⊢
  subst he
  constructor
  · simp [asyncPollLoop, hc, parseMarker]
  · simp [syncPollLoop, parseMarker]

/-- Witness for C10 at a concrete empty-payload iteration. -/
theorem empty_marker_payload_skipped_witness :
    (emptyObs.streamDiv = some MarkerContent.empty
      ∧ (emptyObs.elapsedOver && (none : Option String).isNone) = false)
    ∧ (asyncPollLoop (emptyObs :: []) ⟨"", "p0", none⟩ none
        = if emptyObs.eofPresent then ⟨PollExit.eofBreak, ⟨"", "p0", none⟩, [], [], []⟩
          else asyncPollLoop [] ⟨"", "p0", none⟩ none)
    ∧ (syncPollLoop (emptyObs :: []) ⟨"", "p0", none⟩
        = if emptyObs.eofPresent then ⟨PollExit.eofBreak, ⟨"", "p0", none⟩, [], [], []⟩
          else if emptyObs.elapsedOver then ⟨PollExit.timeoutExit, ⟨"", "p0", none⟩, [], [], []⟩
          else syncPollLoop [] ⟨"", "p0", none⟩) :=
  ⟨⟨by decide, by decide⟩,
    (empty_marker_payload_skipped emptyObs [] ⟨"", "p0", none⟩ none (by decide) (by decide)).1,
    (empty_marker_payload_skipped emptyObs [] ⟨"", "p0", none⟩ none (by decide) (by decide)).2⟩

end ChatGPTWrapper
